import Mathlib

/-!
Shallow embedding of the proctoring and lockdown subsystem of the
Reincrew.AI interview platform, together with theorems settling the
frozen claims about its specification.

Source files embedded:
- `src/components/CameraMonitor.tsx` (vision pipeline: `getThresholds`,
  `processResult`, `attemptTriggerWarning`, `triggerWarning`)
- `src/hooks/useFullscreenLockdown.ts` (lockdown state machine:
  `triggerViolation`, `handleFullscreenChange`, `handleVisibilityChange`,
  `handleWindowBlur`, `forceExitFullscreen`)
- `src/components/InterviewScreen.tsx` (strike ledger / session
  controller: `handleCameraWarning`, `handleLockdownViolation`,
  `handleLockdownTerminate`)

Display strings from the source are modelled as values of an enumerated
`Msg` type (one constructor per distinct source string); only their
identity matters for the claims, never their character content.
Timestamps are modelled as natural-number milliseconds (`Date.now()`).
-/

namespace Reincrew

/-! ## Vision pipeline: CameraMonitor.tsx -/

/-- The `sensitivity` prop of `CameraMonitor` (`'Low' | 'Medium' | 'High'`). -/
inductive Sensitivity
  | low
  | medium
  | high
deriving DecidableEq, Repr, Fintype

/-- Result of `getThresholds()` in CameraMonitor.tsx. -/
structure Thresholds where
  missing : Nat
  away : Nat
deriving DecidableEq, Repr

/-- `getThresholds` (CameraMonitor.tsx lines 38-45):
High → {missing 5, away 4}; Low → {missing 30, away 20};
Medium (default) → {missing 15, away 10}. -/
def getThresholds : Sensitivity → Thresholds
  | .high => ⟨5, 4⟩
  | .low => ⟨30, 20⟩
  | .medium => ⟨15, 10⟩

/-- Per-frame derived observation consumed by `processResult`:
`faceCount` is `result.faceLandmarks.length`; the four booleans are the
per-frame condition predicates the geometric/blendshape code computes
(`isLookingAway`, `isHeadDown`, `isEyesLookingDown`, `isTalking`). -/
structure FrameObs where
  faceCount : Nat
  isLookingAway : Bool
  isHeadDown : Bool
  isEyesLookingDown : Bool
  isTalking : Bool
deriving DecidableEq, Repr

/-- The six monitored conditions, each with its own debounce counter ref. -/
inductive Condition
  | multipleFaces
  | faceMissing
  | lookingAway
  | talking
  | phoneUse
  | lookingDown
deriving DecidableEq, Repr, Fintype

/-- The six debounce-counter refs of CameraMonitor.tsx (lines 27-32). -/
structure VisionCounters where
  multipleFacesFrames : Nat
  missingFaceFrames : Nat
  lookingAwayFrames : Nat
  lookingDownFrames : Nat
  talkingFrames : Nat
  phoneUseFrames : Nat
deriving DecidableEq, Repr

def VisionCounters.start : VisionCounters := ⟨0, 0, 0, 0, 0, 0⟩

/-- `processResult` (CameraMonitor.tsx lines 146-321), restricted to the
debounce counters and the `attemptTriggerWarning` calls it makes, in
source order.  Returns the updated counters and the list of conditions
for which `attemptTriggerWarning` was invoked on this frame.
Key control flow kept from the source:
- block 1 (multiple faces): increment on `faceCount > 1`, else reset to 0;
  fire when counter exceeds 10 (no post-fire reset);
- block 2 (face presence): when no face, increment `missingFaceFrames`,
  fire when it exceeds the sensitivity threshold, and RETURN EARLY
  (the remaining counters are untouched on a no-face frame); when a face
  is present, reset `missingFaceFrames` to 0;
- block 3 (looking away): increment/reset-to-0, fire above the away
  threshold (no post-fire reset);
- block 6 (talking): increment; above 60 fire and partially reset to 30;
  otherwise decay by `Math.max(0, c - 1)`;
- block 7 (phone use = headDown AND eyesDown): increment; above 15 fire
  and partially reset to 5; otherwise decay by 1 floored at 0;
- head-down-only block: increment when headDown and not phone-use; above
  20 fire and partially reset to 10; otherwise decay by 1 floored at 0.
`Math.max(0, c - 1)` on a non-negative count is exactly truncated
subtraction `c - 1` on `Nat`. -/
def processResult (sens : Sensitivity) (f : FrameObs) (s : VisionCounters) :
    VisionCounters × List Condition :=
  let th := getThresholds sens
  -- 1. Multiple Faces Check (Collaboration)
  let mf := if 1 < f.faceCount then s.multipleFacesFrames + 1 else 0
  let aMulti : List Condition :=
    if 1 < f.faceCount ∧ 10 < s.multipleFacesFrames + 1 then [.multipleFaces] else []
  -- 2. Face Presence Check (early return when the face is missing)
  if f.faceCount = 0 then
    ({ s with
        multipleFacesFrames := mf,
        missingFaceFrames := s.missingFaceFrames + 1 },
     aMulti ++
       (if th.missing < s.missingFaceFrames + 1 then [Condition.faceMissing] else []))
  else
    -- 3. Horizontal Gaze Tracking
    let la := if f.isLookingAway then s.lookingAwayFrames + 1 else 0
    let aAway : List Condition :=
      if f.isLookingAway ∧ th.away < s.lookingAwayFrames + 1 then [.lookingAway] else []
    -- 6. Talking / Lip Movement Detection
    let tk :=
      if f.isTalking then
        if 60 < s.talkingFrames + 1 then 30 else s.talkingFrames + 1
      else s.talkingFrames - 1
    let aTalk : List Condition :=
      if f.isTalking ∧ 60 < s.talkingFrames + 1 then [.talking] else []
    -- 7. Phone Use Detection (Composite)
    let susp := f.isHeadDown && f.isEyesLookingDown
    let ph :=
      if susp then
        if 15 < s.phoneUseFrames + 1 then 5 else s.phoneUseFrames + 1
      else s.phoneUseFrames - 1
    let aPhone : List Condition :=
      if susp ∧ 15 < s.phoneUseFrames + 1 then [.phoneUse] else []
    -- Head-down-only block
    let ld :=
      if f.isHeadDown && !susp then
        if 20 < s.lookingDownFrames + 1 then 10 else s.lookingDownFrames + 1
      else s.lookingDownFrames - 1
    let aDown : List Condition :=
      if (f.isHeadDown && !susp) ∧ 20 < s.lookingDownFrames + 1 then [.lookingDown] else []
    ({ multipleFacesFrames := mf,
       missingFaceFrames := 0,
       lookingAwayFrames := la,
       lookingDownFrames := ld,
       talkingFrames := tk,
       phoneUseFrames := ph },
     aMulti ++ aAway ++ aTalk ++ aPhone ++ aDown)

/-- Iterate `processResult` over a list of frames, accumulating all
`attemptTriggerWarning` invocations in order. -/
def visionRun (sens : Sensitivity) (s : VisionCounters) :
    List FrameObs → VisionCounters × List Condition
  | [] => (s, [])
  | f :: rest =>
    let r := processResult sens f s
    let r' := visionRun sens r.1 rest
    (r'.1, r.2 ++ r'.2)

/-- The debounce threshold each condition's counter must strictly exceed
before `attemptTriggerWarning` is invoked (literals from
CameraMonitor.tsx blocks 1-7). -/
def conditionThreshold (sens : Sensitivity) : Condition → Nat
  | .multipleFaces => 10
  | .faceMissing => (getThresholds sens).missing
  | .lookingAway => (getThresholds sens).away
  | .talking => 60
  | .phoneUse => 15
  | .lookingDown => 20

/-- A canonical frame on which exactly the given condition qualifies. -/
def qualFrame : Condition → FrameObs
  | .multipleFaces => ⟨2, false, false, false, false⟩
  | .faceMissing => ⟨0, false, false, false, false⟩
  | .lookingAway => ⟨1, true, false, false, false⟩
  | .talking => ⟨1, false, false, false, true⟩
  | .phoneUse => ⟨1, false, true, true, false⟩
  | .lookingDown => ⟨1, false, true, false, false⟩

/-- A frame with one forward-looking face: no condition qualifies. -/
def nonQualFrame : FrameObs := ⟨1, false, false, false, false⟩

/-! ## Display messages (one constructor per distinct source string) -/

/-- Display/diagnostic messages of the source, modelled as an enumeration.
`strike n m` stands for the string `STRIKE n: m` built by `triggerWarning`
(CameraMonitor.tsx line 338) and `triggerViolation`
(useFullscreenLockdown.ts line 84); `strikeLedger n` stands for the
string `Strike n: Loss of eye contact.` built by `handleCameraWarning`
(InterviewScreen.tsx line 164). -/
inductive Msg
  | initializingIntegritySystem
  | collaborationDetected
  | faceNotDetected
  | maintainEyeContact
  | suspiciousLipMovement
  | suspectedPhoneUsage
  | headDownDetected
  | exitingFullscreenProhibited
  | tabSwitchingProhibited
  | windowFocusLost
  | emptyMessage
  | strike (n : Nat) (m : Msg)
  | strikeLedger (n : Nat)
deriving DecidableEq, Repr

/-- Message passed to `attemptTriggerWarning` for each condition
(CameraMonitor.tsx lines 155, 166, 194, 236, 250, 261). -/
def conditionMessage : Condition → Msg
  | .multipleFaces => .collaborationDetected
  | .faceMissing => .faceNotDetected
  | .lookingAway => .maintainEyeContact
  | .talking => .suspiciousLipMovement
  | .phoneUse => .suspectedPhoneUsage
  | .lookingDown => .headDownDetected

/-! ## Camera warning rate limiter: CameraMonitor.tsx lines 323-340 -/

/-- The warning-side refs/state of CameraMonitor:
`lastWarningTimeRef`, `warningCounterRef`, and the displayed
`feedbackMsg`. -/
structure CamWarnState where
  lastWarningTime : Nat
  warningCounter : Nat
  feedbackMsg : Msg
deriving DecidableEq, Repr

def CamWarnState.start : CamWarnState := ⟨0, 0, .initializingIntegritySystem⟩

/-- `triggerWarning` (CameraMonitor.tsx lines 333-340): when not locked,
increment the warning counter, show `STRIKE n: msg`, and emit
`onWarning(n)`; the emission is returned as `some n`. -/
def triggerWarning (isLocked : Bool) (msg : Msg) (s : CamWarnState) :
    CamWarnState × Option Nat :=
  if isLocked then (s, none)
  else
    let c := s.warningCounter + 1
    ({ s with warningCounter := c, feedbackMsg := .strike c msg }, some c)

/-- `attemptTriggerWarning` (CameraMonitor.tsx lines 323-331): a global
2000ms rate limit over all vision conditions; a same-window attempt only
updates the feedback message.  Note `lastWarningTimeRef` is updated
whenever the window check passes, even if `triggerWarning` returns early
because of `isLocked`.  JS `now - last > 2000` on non-negative clock
values coincides with truncated `Nat` subtraction. -/
def attemptTriggerWarning (now : Nat) (isLocked : Bool) (msg : Msg)
    (s : CamWarnState) : CamWarnState × Option Nat :=
  if 2000 < now - s.lastWarningTime then
    let r := triggerWarning isLocked msg s
    ({ r.1 with lastWarningTime := now }, r.2)
  else
    ({ s with feedbackMsg := msg }, none)

/-! ## Lockdown state machine: useFullscreenLockdown.ts -/

/-- `LockdownViolation['type']` (useFullscreenLockdown.ts line 4). -/
inductive VType
  | fullscreenExit
  | tabSwitch
  | devtools
  | rightClick
deriving DecidableEq, Repr

/-- A `LockdownViolation` as passed to `onViolation`; the timestamp is
attached at delivery time by the session model. -/
structure LockdownViolation where
  vtype : VType
  message : Msg
deriving DecidableEq, Repr

/-- Callbacks emitted by the lockdown machine, in invocation order:
`onViolation v` and `onTerminate`. -/
inductive LockOut
  | violation (v : LockdownViolation)
  | terminate
deriving DecidableEq, Repr

/-- `maxViolations` and `graceMs` options of `useFullscreenLockdown`. -/
structure LockConfig where
  maxViolations : Nat
  graceMs : Nat
deriving DecidableEq, Repr

/-- Destructuring default `maxViolations = 3`
(useFullscreenLockdown.ts line 31). -/
def resolveMaxViolations (o : Option Nat) : Nat := o.getD 3

/-- Destructuring default `graceMs = 2000`
(useFullscreenLockdown.ts line 32). -/
def resolveGraceMs (o : Option Nat) : Nat := o.getD 2000

/-- The `graceMs` value the InterviewScreen caller passes explicitly
(InterviewScreen.tsx line 99). -/
def interviewScreenGraceMs : Nat := 1500

/-- State of the lockdown hook: `enabledRef`, `isExitingRef`,
`violationCountRef`, the current `document.fullscreenElement` presence,
the pending grace timer's absolute deadline (none when no timer is
armed), and the overlay state. -/
structure LockState where
  enabled : Bool
  isExiting : Bool
  violationCount : Nat
  isFullscreen : Bool
  graceDeadline : Option Nat
  showViolationOverlay : Bool
  violationMessage : Msg
deriving DecidableEq, Repr

/-- Environment/browser events driving the lockdown machine.
`fsChange b` is a `fullscreenchange` event after which
`document.fullscreenElement` presence is `b`; `graceFire` is the pending
grace timer elapsing (a cancelled timer is never delivered);
`visibilityChange hidden` and `windowBlur` are the focus events;
`forceExit` is a call to `forceExitFullscreen`; `setEnabled b` is the
`enabled` prop (and its ref) changing on re-render. -/
inductive LEvent
  | fsChange (inFS : Bool)
  | graceFire
  | visibilityChange (hidden : Bool)
  | windowBlur
  | forceExit
  | setEnabled (b : Bool)
deriving DecidableEq, Repr

/-- `triggerViolation` (useFullscreenLockdown.ts lines 73-95): guarded by
`enabled` and `isExiting`; increments the shared ref counter, shows the
overlay, emits `onViolation`, and emits `onTerminate` when the new count
has reached `maxViolations`. -/
def triggerViolation (cfg : LockConfig) (vt : VType) (msg : Msg)
    (s : LockState) : LockState × List LockOut :=
  if !s.enabled || s.isExiting then (s, [])
  else
    let c := s.violationCount + 1
    let s' := { s with
      violationCount := c,
      violationMessage := msg,
      showViolationOverlay := true }
    if cfg.maxViolations ≤ c then
      (s', [.violation ⟨vt, .strike c msg⟩, .terminate])
    else
      (s', [.violation ⟨vt, .strike c msg⟩])

/-- `handleFullscreenChange` (useFullscreenLockdown.ts lines 101-121) at
time `t`: record the new fullscreen state; on an exit that is neither
intentional nor disabled, clear any pending grace timer and arm a new
one for `t + graceMs` (the 300ms silent re-entry attempt has no effect
on the modelled state; a successful re-entry surfaces as a later
`fsChange true` event). -/
def handleFullscreenChange (cfg : LockConfig) (t : Nat) (inFS : Bool)
    (s : LockState) : LockState × List LockOut :=
  let s := { s with isFullscreen := inFS }
  if !inFS && !s.isExiting && s.enabled then
    ({ s with graceDeadline := some (t + cfg.graceMs) }, [])
  else (s, [])

/-- The grace-timer callback (useFullscreenLockdown.ts lines 108-112):
when the armed timer elapses, if fullscreen has still not been restored
and the machine is enabled and not intentionally exiting, register one
FULLSCREEN_EXIT violation. -/
def fireGraceTimer (cfg : LockConfig) (s : LockState) :
    LockState × List LockOut :=
  match s.graceDeadline with
  | none => (s, [])
  | some _ =>
    let s := { s with graceDeadline := none }
    if !s.isFullscreen && s.enabled && !s.isExiting then
      triggerViolation cfg .fullscreenExit .exitingFullscreenProhibited s
    else (s, [])

/-- `handleVisibilityChange` (useFullscreenLockdown.ts lines 134-138). -/
def handleVisibilityChange (cfg : LockConfig) (hidden : Bool)
    (s : LockState) : LockState × List LockOut :=
  if hidden && s.enabled && !s.isExiting then
    triggerViolation cfg .tabSwitch .tabSwitchingProhibited s
  else (s, [])

/-- `handleWindowBlur` (useFullscreenLockdown.ts lines 140-144). -/
def handleWindowBlur (cfg : LockConfig) (s : LockState) :
    LockState × List LockOut :=
  if s.enabled && !s.isExiting then
    triggerViolation cfg .tabSwitch .windowFocusLost s
  else (s, [])

/-- One lockdown-machine step on an environment event at time `t`.
`forceExit` sets the intentional-exit flag (useFullscreenLockdown.ts
lines 59-64; nothing in the hook ever clears it).  Disabling cancels any
pending grace timer (the listener effect's cleanup clears
`graceTimerRef`, lines 124-127). -/
def lockStep (cfg : LockConfig) (t : Nat) (s : LockState) :
    LEvent → LockState × List LockOut
  | .fsChange inFS => handleFullscreenChange cfg t inFS s
  | .graceFire => fireGraceTimer cfg s
  | .visibilityChange hidden => handleVisibilityChange cfg hidden s
  | .windowBlur => handleWindowBlur cfg s
  | .forceExit => ({ s with isExiting := true }, [])
  | .setEnabled b =>
    ({ s with enabled := b,
              graceDeadline := if b then s.graceDeadline else none }, [])

/-- Iterate `lockStep` over timed events, accumulating emitted
callbacks in order. -/
def lockRun (cfg : LockConfig) (s : LockState) :
    List (Nat × LEvent) → LockState × List LockOut
  | [] => (s, [])
  | (t, e) :: rest =>
    let r := lockStep cfg t s e
    let r' := lockRun cfg r.1 rest
    (r'.1, r.2 ++ r'.2)

/-- True for an emitted `onViolation` whose violation has type
FULLSCREEN_EXIT. -/
def LockOut.isFsExitViolation : LockOut → Bool
  | .violation v => v.vtype == VType.fullscreenExit
  | .terminate => false

/-! ## Strike ledger / session controller: InterviewScreen.tsx -/

/-- `WarningEvent['type']` (types.ts). -/
inductive WType
  | gaze
  | faceMissing
  | multipleFaces
  | tabSwitch
  | fullscreenExit
deriving DecidableEq, Repr

/-- A `WarningEvent` (types.ts); the ISO-8601 timestamp string is
modelled as the millisecond clock value it renders. -/
structure WarningEvent where
  timestamp : Nat
  wtype : WType
  message : Msg
deriving DecidableEq, Repr

/-- The mapping `violation.type === 'TAB_SWITCH' ? 'TAB_SWITCH' :
'FULLSCREEN_EXIT'` of `handleLockdownViolation`
(InterviewScreen.tsx line 64). -/
def mapViolationType : VType → WType
  | .tabSwitch => .tabSwitch
  | _ => .fullscreenExit

/-- Configuration the InterviewScreen feeds the proctoring subsystem:
`maxWarnings := settings?.proctoring.maxWarnings || 3` (used both as the
lockdown's `maxViolations`, line 98, and as the vision-side limit,
line 167) and the camera `sensitivity` prop (line 486). -/
structure SessionConfig where
  maxWarnings : Nat
  sensitivity : Sensitivity
deriving DecidableEq, Repr

/-- The `LockConfig` InterviewScreen constructs
(InterviewScreen.tsx lines 94-100): `maxViolations := maxWarnings`,
`graceMs := 1500`. -/
def sessionLockConfig (cfg : SessionConfig) : LockConfig :=
  ⟨cfg.maxWarnings, interviewScreenGraceMs⟩

/-- Session-level state: the lockdown machine's state, the camera
monitor's warning state and debounce counters, the unified warning log
(`warningLogRef`), the LOCKED status flag (`statusRef`), and counts of
the observable termination side effects: `stopsIssued` counts
`stopListening()`/`stopSpeaking()` pairs, `blockedWrites` counts
`localStorage.setItem('blocked_<accessId>', 'true')` writes, and
`completionsScheduled` records each scheduled
`onComplete(..., 'TERMINATED')` call as its delay in ms. -/
structure SessionState where
  lock : LockState
  cam : CamWarnState
  counters : VisionCounters
  warnLog : List WarningEvent
  statusLocked : Bool
  stopsIssued : Nat
  blockedWrites : Nat
  completionsScheduled : List Nat
deriving DecidableEq, Repr

/-- The state at interview start: lockdown enabled and in fullscreen,
all counters zero, empty log. -/
def sessionStart : SessionState :=
  { lock := { enabled := true, isExiting := false, violationCount := 0,
              isFullscreen := true, graceDeadline := none,
              showViolationOverlay := false, violationMessage := .emptyMessage },
    cam := CamWarnState.start,
    counters := VisionCounters.start,
    warnLog := [],
    statusLocked := false,
    stopsIssued := 0,
    blockedWrites := 0,
    completionsScheduled := [] }

/-- `handleLockdownViolation` (InterviewScreen.tsx lines 61-70): unless
already LOCKED, append the violation to the unified warning log. -/
def handleLockdownViolation (t : Nat) (v : LockdownViolation)
    (s : SessionState) : SessionState :=
  if s.statusLocked then s
  else { s with
    warnLog := s.warnLog ++ [⟨t, mapViolationType v.vtype, v.message⟩] }

/-- `handleLockdownTerminate` (InterviewScreen.tsx lines 72-84): unless
already LOCKED, set LOCKED, stop listening and speaking, write the
`blocked_<accessId>` key, and schedule `onComplete(..., 'TERMINATED')`
after a 3000ms delay. -/
def handleLockdownTerminate (s : SessionState) : SessionState :=
  if s.statusLocked then s
  else { s with
    statusLocked := true,
    stopsIssued := s.stopsIssued + 1,
    blockedWrites := s.blockedWrites + 1,
    completionsScheduled := s.completionsScheduled ++ [3000] }

/-- `handleCameraWarning` (InterviewScreen.tsx lines 158-182): unless
already LOCKED, append a GAZE warning event for the vision strike; then,
if the updated log length has reached `maxWarnings`, set LOCKED, stop
listening and speaking, write the blocked key, call
`forceExitFullscreen()` (which sets the lockdown machine's exiting
flag), and schedule the TERMINATED completion after 3000ms. -/
def handleCameraWarning (cfg : SessionConfig) (t : Nat) (count : Nat)
    (s : SessionState) : SessionState :=
  if s.statusLocked then s
  else
    let log := s.warnLog ++ [⟨t, .gaze, .strikeLedger count⟩]
    if cfg.maxWarnings ≤ log.length then
      { s with
        warnLog := log,
        statusLocked := true,
        stopsIssued := s.stopsIssued + 1,
        blockedWrites := s.blockedWrites + 1,
        completionsScheduled := s.completionsScheduled ++ [3000],
        lock := { s.lock with isExiting := true } }
    else { s with warnLog := log }

/-- One vision condition attempting a warning at time `t`: the camera
monitor runs `attemptTriggerWarning` (with its `isLocked` prop, which
InterviewScreen passes as the literal `false`, line 484) and an accepted
strike is delivered to `handleCameraWarning` via `onWarning`. -/
def camAttemptStep (cfg : SessionConfig) (t : Nat) (s : SessionState)
    (c : Condition) : SessionState :=
  let r := attemptTriggerWarning t false (conditionMessage c) s.cam
  let s' := { s with cam := r.1 }
  match r.2 with
  | none => s'
  | some n => handleCameraWarning cfg t n s'

/-- Deliver one emitted lockdown callback to the InterviewScreen
handlers. -/
def deliverLockOut (t : Nat) (s : SessionState) : LockOut → SessionState
  | .violation v => handleLockdownViolation t v s
  | .terminate => handleLockdownTerminate s

/-- Session-level events: one processed camera frame, or one
environment event, each at clock time `t`. -/
inductive SEvent
  | frame (t : Nat) (f : FrameObs)
  | env (t : Nat) (e : LEvent)
deriving DecidableEq, Repr

/-- One session step.  A camera frame runs `processResult` on the
debounce counters and then each `attemptTriggerWarning` call in source
order; an environment event runs the lockdown machine and then delivers
its emitted callbacks (`onViolation` before `onTerminate`, as emitted)
to the InterviewScreen handlers. -/
def sessionStep (cfg : SessionConfig) (s : SessionState) :
    SEvent → SessionState
  | .frame t f =>
    let r := processResult cfg.sensitivity f s.counters
    (r.2).foldl (camAttemptStep cfg t) { s with counters := r.1 }
  | .env t e =>
    let r := lockStep (sessionLockConfig cfg) t s.lock e
    (r.2).foldl (deliverLockOut t) { s with lock := r.1 }

/-- Iterate `sessionStep` over a list of session events. -/
def sessionRun (cfg : SessionConfig) (s : SessionState) :
    List SEvent → SessionState
  | [] => s
  | e :: rest => sessionRun cfg (sessionStep cfg s e) rest

/-! ## Derived definitions used by the theorems -/

/-- The debounce counter belonging to each condition. -/
def counterOf : Condition → VisionCounters → Nat
  | .multipleFaces, s => s.multipleFacesFrames
  | .faceMissing, s => s.missingFaceFrames
  | .lookingAway, s => s.lookingAwayFrames
  | .talking, s => s.talkingFrames
  | .phoneUse, s => s.phoneUseFrames
  | .lookingDown, s => s.lookingDownFrames

/-- Spec scenario D configuration: maxWarnings 3, High sensitivity. -/
def scenarioDConfig : SessionConfig := ⟨3, .high⟩

/-- `n` consecutive processed frames with zero faces detected, at clock
times 3000, 3001, ... -/
def scenarioDFrames (n : Nat) : List SEvent :=
  (List.range n).map (fun i => SEvent.frame (3000 + i) (qualFrame Condition.faceMissing))

/-- One vision-fired violation (six no-face frames) followed by one
environment-fired violation (window blur). -/
def mixedSourceTrace : List SEvent :=
  scenarioDFrames 6 ++ [SEvent.env 4000 LEvent.windowBlur]

/-- Two environment-fired violations 500ms apart. -/
def doubleBlurTrace : List SEvent :=
  [SEvent.env 1000 LEvent.windowBlur, SEvent.env 1500 LEvent.windowBlur]

/-- Four environment-fired violations, each more than 2s apart. -/
def fourBlursTrace : List SEvent :=
  [.env 1000 .windowBlur, .env 4000 .windowBlur,
   .env 7000 .windowBlur, .env 10000 .windowBlur]

/-- Invariant tying the LOCKED status flag to the observable termination
side effects: before LOCKED no termination effect has run and the
lockdown counter is below the limit; once LOCKED, each effect has run
exactly once. -/
def SessionInv (cfg : SessionConfig) (s : SessionState) : Prop :=
  (s.statusLocked = false →
    s.completionsScheduled = [] ∧ s.blockedWrites = 0 ∧ s.stopsIssued = 0 ∧
    s.lock.violationCount < cfg.maxWarnings) ∧
  (s.statusLocked = true →
    s.completionsScheduled = [3000] ∧ s.blockedWrites = 1 ∧ s.stopsIssued = 1)

/-! ## Helper lemmas -/

/-- Once the exiting flag is set, a single lockdown step keeps it set,
keeps the counter, and emits no callback. -/
theorem lockStep_exiting (cfg : LockConfig) (t : Nat) (s : LockState) (e : LEvent)
    (h : s.isExiting = true) :
    (lockStep cfg t s e).1.isExiting = true ∧
    (lockStep cfg t s e).1.violationCount = s.violationCount ∧
    (lockStep cfg t s e).2 = [] := by
  cases e with
  | fsChange inFS => simp [lockStep, handleFullscreenChange, h]
  | graceFire =>
    simp [lockStep, fireGraceTimer, h]
    cases s.graceDeadline <;> simp [h]
  | visibilityChange hidden => simp [lockStep, handleVisibilityChange, h]
  | windowBlur => simp [lockStep, handleWindowBlur, h]
  | forceExit => simp [lockStep]
  | setEnabled b => simp [lockStep, h]

/-- Once the exiting flag is set, a whole run of the lockdown machine
keeps it set, keeps the counter, and emits no callback. -/
theorem lockRun_exiting (cfg : LockConfig) (s : LockState)
    (evs : List (Nat × LEvent)) (h : s.isExiting = true) :
    (lockRun cfg s evs).1.isExiting = true ∧
    (lockRun cfg s evs).1.violationCount = s.violationCount ∧
    (lockRun cfg s evs).2 = [] := by
  induction evs generalizing s with
  | nil => exact ⟨h, rfl, rfl⟩
  | cons te rest ih =>
    obtain ⟨h1, h2, h3⟩ := lockStep_exiting cfg te.1 s te.2 h
    obtain ⟨h4, h5, h6⟩ := ih (lockStep cfg te.1 s te.2).1 h1
    refine ⟨h4, h5.trans h2, ?_⟩
    simp [lockRun, h3, h6]

/-- `triggerViolation` either rejects the violation (guard), or accepts
it with one `onViolation` and no `onTerminate` (below the limit), or
accepts it with one `onViolation` followed by `onTerminate` (limit
reached). -/
theorem triggerViolation_shape (cfg : LockConfig) (vt : VType) (m : Msg)
    (ls : LockState) :
    ((triggerViolation cfg vt m ls).1.violationCount = ls.violationCount ∧
     (triggerViolation cfg vt m ls).2 = []) ∨
    ((triggerViolation cfg vt m ls).1.violationCount = ls.violationCount + 1 ∧
     (triggerViolation cfg vt m ls).1.violationCount < cfg.maxViolations ∧
     ∃ v, (triggerViolation cfg vt m ls).2 = [.violation v]) ∨
    ((triggerViolation cfg vt m ls).1.violationCount = ls.violationCount + 1 ∧
     cfg.maxViolations ≤ (triggerViolation cfg vt m ls).1.violationCount ∧
     ∃ v, (triggerViolation cfg vt m ls).2 = [.violation v, .terminate]) := by
  by_cases h1 : (!ls.enabled || ls.isExiting) = true
  · left; simp [triggerViolation, h1]
  · by_cases h2 : cfg.maxViolations ≤ ls.violationCount + 1
    · right; right
      simp [triggerViolation, h1, h2]
    · right; left
      simp [triggerViolation, h1, h2]
      omega

/-- Every lockdown step has one of the three `triggerViolation` output
shapes. -/
theorem lockStep_shape (cfg : LockConfig) (t : Nat) (ls : LockState) (e : LEvent) :
    ((lockStep cfg t ls e).1.violationCount = ls.violationCount ∧
     (lockStep cfg t ls e).2 = []) ∨
    ((lockStep cfg t ls e).1.violationCount = ls.violationCount + 1 ∧
     (lockStep cfg t ls e).1.violationCount < cfg.maxViolations ∧
     ∃ v, (lockStep cfg t ls e).2 = [.violation v]) ∨
    ((lockStep cfg t ls e).1.violationCount = ls.violationCount + 1 ∧
     cfg.maxViolations ≤ (lockStep cfg t ls e).1.violationCount ∧
     ∃ v, (lockStep cfg t ls e).2 = [.violation v, .terminate]) := by
  cases e with
  | fsChange inFS =>
    left
    simp only [lockStep, handleFullscreenChange]
    split <;> simp
  | graceFire =>
    simp only [lockStep, fireGraceTimer]
    cases hd : ls.graceDeadline with
    | none => left; simp
    | some d =>
      simp only
      split
      · exact triggerViolation_shape cfg _ _ _
      · left; simp
  | visibilityChange hidden =>
    simp only [lockStep, handleVisibilityChange]
    split
    · exact triggerViolation_shape cfg _ _ _
    · left; simp
  | windowBlur =>
    simp only [lockStep, handleWindowBlur]
    split
    · exact triggerViolation_shape cfg _ _ _
    · left; simp
  | forceExit => left; simp [lockStep]
  | setEnabled b => left; simp [lockStep]

/-- Exact characterisation of the conditions for which one frame invokes
`attemptTriggerWarning`. -/
theorem mem_processResult (sens : Sensitivity) (f : FrameObs) (s : VisionCounters)
    (c : Condition) :
    c ∈ (processResult sens f s).2 ↔
      ((c = .multipleFaces ∧ 1 < f.faceCount ∧ 10 < s.multipleFacesFrames + 1) ∨
       (c = .faceMissing ∧ f.faceCount = 0 ∧
         (getThresholds sens).missing < s.missingFaceFrames + 1) ∨
       (c = .lookingAway ∧ f.faceCount ≠ 0 ∧ f.isLookingAway = true ∧
         (getThresholds sens).away < s.lookingAwayFrames + 1) ∨
       (c = .talking ∧ f.faceCount ≠ 0 ∧ f.isTalking = true ∧
         60 < s.talkingFrames + 1) ∨
       (c = .phoneUse ∧ f.faceCount ≠ 0 ∧
         (f.isHeadDown && f.isEyesLookingDown) = true ∧ 15 < s.phoneUseFrames + 1) ∨
       (c = .lookingDown ∧ f.faceCount ≠ 0 ∧
         (f.isHeadDown && !(f.isHeadDown && f.isEyesLookingDown)) = true ∧
         20 < s.lookingDownFrames + 1)) := by
  by_cases hf : f.faceCount = 0
  · cases c <;> simp [processResult, hf] <;> split_ifs <;> simp_all
  · cases c <;> simp [processResult, hf] <;> split_ifs <;> simp_all

/-- `handleCameraWarning` preserves the session invariant. -/
theorem handleCameraWarning_inv (cfg : SessionConfig) (t n : Nat) (s : SessionState)
    (h : SessionInv cfg s) : SessionInv cfg (handleCameraWarning cfg t n s) := by
  obtain ⟨hu, hk⟩ := h
  unfold handleCameraWarning
  split
  · exact ⟨hu, hk⟩
  · rename_i hl
    simp only [Bool.not_eq_true] at hl
    obtain ⟨hc, hb, hs, hv⟩ := hu hl
    dsimp only
    split
    · exact ⟨fun hx => by simp at hx, fun _ => by simp [hc, hb, hs]⟩
    · exact ⟨fun _ => by simp [hc, hb, hs, hv], fun hx => by simp at hx; simp [hx] at hl⟩

/-- `handleLockdownViolation` preserves the session invariant. -/
theorem handleLockdownViolation_inv (cfg : SessionConfig) (t : Nat)
    (v : LockdownViolation) (s : SessionState)
    (h : SessionInv cfg s) : SessionInv cfg (handleLockdownViolation t v s) := by
  obtain ⟨hu, hk⟩ := h
  unfold handleLockdownViolation
  split
  · exact ⟨hu, hk⟩
  · exact ⟨fun hx => by simpa using hu (by simpa using hx),
           fun hx => by simpa using hk (by simpa using hx)⟩

/-- One vision attempt (rate limiter plus warning delivery) preserves
the session invariant. -/
theorem camAttemptStep_inv (cfg : SessionConfig) (t : Nat) (s : SessionState)
    (c : Condition) (h : SessionInv cfg s) :
    SessionInv cfg (camAttemptStep cfg t s c) := by
  obtain ⟨hu, hk⟩ := h
  have hmid : SessionInv cfg
      { s with cam := (attemptTriggerWarning t false (conditionMessage c) s.cam).1 } :=
    ⟨fun hx => hu hx, fun hx => hk hx⟩
  unfold camAttemptStep
  cases hm : (attemptTriggerWarning t false (conditionMessage c) s.cam).2 with
  | none => simp only [hm]; exact hmid
  | some n => simp only [hm]; exact handleCameraWarning_inv cfg t n _ hmid

/-- Folding the vision attempts of one frame preserves the session
invariant. -/
theorem camFold_inv (cfg : SessionConfig) (t : Nat) (l : List Condition)
    (s : SessionState) (h : SessionInv cfg s) :
    SessionInv cfg (l.foldl (camAttemptStep cfg t) s) := by
  induction l generalizing s with
  | nil => exact h
  | cons c rest ih => exact ih _ (camAttemptStep_inv cfg t s c h)

/-- One session step preserves the session invariant. -/
theorem sessionStep_inv (cfg : SessionConfig) (s : SessionState) (e : SEvent)
    (h : SessionInv cfg s) : SessionInv cfg (sessionStep cfg s e) := by
  obtain ⟨hu, hk⟩ := h
  cases e with
  | frame t f =>
    simp only [sessionStep]
    exact camFold_inv cfg t _ _ ⟨fun hx => hu hx, fun hx => hk hx⟩
  | env t e =>
    have shape := lockStep_shape (sessionLockConfig cfg) t s.lock e
    simp only [sessionStep]
    rcases shape with ⟨hc, ho⟩ | ⟨hc, hlt, v, ho⟩ | ⟨hc, hge, v, ho⟩
    · rw [ho]
      refine ⟨fun hx => ?_, fun hx => by simpa using hk (by simpa using hx)⟩
      obtain ⟨a, b, c', d⟩ := hu (by simpa using hx)
      exact ⟨by simpa using a, by simpa using b, by simpa using c',
             by simp [hc]; omega⟩
    · rw [ho]
      simp only [List.foldl, deliverLockOut]
      apply handleLockdownViolation_inv
      refine ⟨fun hx => ?_, fun hx => by simpa using hk (by simpa using hx)⟩
      obtain ⟨a, b, c', d⟩ := hu (by simpa using hx)
      refine ⟨by simpa using a, by simpa using b, by simpa using c', ?_⟩
      simp only [hc]
      have : (sessionLockConfig cfg).maxViolations = cfg.maxWarnings := rfl
      omega
    · rw [ho]
      simp only [List.foldl, deliverLockOut]
      by_cases hl : s.statusLocked = true
      · obtain ⟨a, b, c'⟩ := hk hl
        simp only [handleLockdownViolation, handleLockdownTerminate]
        simp only [hl, if_true]
        exact ⟨fun hx => by simp [hl] at hx, fun _ => by simp [a, b, c']⟩
      · simp only [Bool.not_eq_true] at hl
        obtain ⟨a, b, c', d⟩ := hu hl
        simp only [handleLockdownViolation, handleLockdownTerminate]
        simp only [hl, Bool.false_eq_true, if_false]
        exact ⟨fun hx => by simp at hx, fun _ => by simp [a, b, c']⟩

/-- The session invariant is preserved by whole runs. -/
theorem sessionRun_inv (cfg : SessionConfig) (s : SessionState) (evs : List SEvent)
    (h : SessionInv cfg s) : SessionInv cfg (sessionRun cfg s evs) := by
  induction evs generalizing s with
  | nil => exact h
  | cons e rest ih => exact ih _ (sessionStep_inv cfg s e h)

/-- The start state satisfies the session invariant whenever the
configured limit is at least 1 (the source computes it as
`settings?.proctoring.maxWarnings || 3`, which is always at least 1). -/
theorem sessionStart_inv (cfg : SessionConfig) (hmax : 1 ≤ cfg.maxWarnings) :
    SessionInv cfg sessionStart := by
  refine ⟨fun _ => ⟨rfl, rfl, rfl, ?_⟩, fun hx => by simp [sessionStart] at hx⟩
  simpa [sessionStart] using hmax

/-! ## Claim theorems -/

/-- C1 counterexample: the vision pipeline and the lockdown machine do
NOT consult one shared strike counter.  After one vision-fired violation
(six no-face frames at High sensitivity) followed by one
environment-fired violation (window blur), the count the lockdown side
compared against its maximum at that environment violation is its own
counter, 1, while the total number of violations registered by both
sources (the unified warning log) is 2. -/
theorem strike_counter_not_shared_cex :
    (sessionRun scenarioDConfig sessionStart mixedSourceTrace).lock.violationCount = 1 ∧
    (sessionRun scenarioDConfig sessionStart mixedSourceTrace).warnLog.length = 2 ∧
    ¬ (sessionRun scenarioDConfig sessionStart mixedSourceTrace).lock.violationCount =
      (sessionRun scenarioDConfig sessionStart mixedSourceTrace).warnLog.length := by
  decide

/-- C1 amended: both subsystems append their violations to one ordered,
timestamped log, but each consults its own counter before triggering
termination: the vision side compares the unified log length (which
covers both sources) against the maximum, while the lockdown side
compares only its private count of environment-fired violations, so the
two compared values can differ once any vision violation has been
registered. -/
theorem strike_ledger_split_counters (cfg : SessionConfig) (t count : Nat)
    (s : SessionState) (v : LockdownViolation) :
    (s.statusLocked = false →
      (handleCameraWarning cfg t count s).warnLog
          = s.warnLog ++ [⟨t, WType.gaze, Msg.strikeLedger count⟩] ∧
      (handleCameraWarning cfg t count s).lock.violationCount
          = s.lock.violationCount ∧
      ((handleCameraWarning cfg t count s).statusLocked = true ↔
         cfg.maxWarnings ≤ s.warnLog.length + 1)) ∧
    (s.lock.enabled = true → s.lock.isExiting = false →
      ∀ (vt : VType) (m : Msg),
        (triggerViolation (sessionLockConfig cfg) vt m s.lock).1.violationCount
            = s.lock.violationCount + 1 ∧
        (LockOut.terminate ∈ (triggerViolation (sessionLockConfig cfg) vt m s.lock).2 ↔
           cfg.maxWarnings ≤ s.lock.violationCount + 1)) ∧
    (s.statusLocked = false →
      (handleLockdownViolation t v s).warnLog
        = s.warnLog ++ [⟨t, mapViolationType v.vtype, v.message⟩]) := by
  refine ⟨?_, ?_, ?_⟩
  · intro hl
    unfold handleCameraWarning
    simp only [hl, Bool.false_eq_true, if_false]
    split
    · rename_i hlen
      simp only [List.length_append, List.length_cons, List.length_nil] at hlen
      exact ⟨rfl, rfl, by simpa using hlen⟩
    · rename_i hlen
      simp only [List.length_append, List.length_cons, List.length_nil] at hlen
      refine ⟨rfl, rfl, ?_⟩
      simp only [hl, Bool.false_eq_true, false_iff]
      omega
  · intro hen hex vt m
    unfold triggerViolation
    simp only [hen, hex, Bool.not_true, Bool.false_or, Bool.false_eq_true, if_false]
    have hcfg : (sessionLockConfig cfg).maxViolations = cfg.maxWarnings := rfl
    split
    · rename_i hge
      rw [hcfg] at hge
      simp [hge]
    · rename_i hge
      rw [hcfg] at hge
      simp [hge]
  · intro hl
    unfold handleLockdownViolation
    simp [hl]

/-- C1 witness: the amended claim applied at session start: registering
a vision strike appends to the log without touching the lockdown
counter. -/
theorem strike_ledger_split_counters_witness :
    sessionStart.statusLocked = false ∧
    (handleCameraWarning scenarioDConfig 1000 1 sessionStart).lock.violationCount
      = sessionStart.lock.violationCount :=
  ⟨rfl, ((strike_ledger_split_counters scenarioDConfig 1000 1 sessionStart
      ⟨.tabSwitch, .windowFocusLost⟩).1 rfl).2.1⟩

/-- C2: for every session event trace, the termination effect (stop
listening and speaking, write the blocked key, schedule the TERMINATED
completion after the 3000ms display delay) executes at most once, and
once the lockdown strike count has reached the configured maximum it has
executed exactly once; registering further violations never triggers a
second termination. -/
theorem termination_idempotent (cfg : SessionConfig) (evs : List SEvent)
    (hmax : 1 ≤ cfg.maxWarnings) :
    (sessionRun cfg sessionStart evs).completionsScheduled.length ≤ 1 ∧
    (sessionRun cfg sessionStart evs).blockedWrites ≤ 1 ∧
    (sessionRun cfg sessionStart evs).stopsIssued ≤ 1 ∧
    (cfg.maxWarnings ≤ (sessionRun cfg sessionStart evs).lock.violationCount →
      (sessionRun cfg sessionStart evs).completionsScheduled = [3000] ∧
      (sessionRun cfg sessionStart evs).blockedWrites = 1 ∧
      (sessionRun cfg sessionStart evs).stopsIssued = 1) := by
  obtain ⟨hu, hk⟩ := sessionRun_inv cfg sessionStart evs (sessionStart_inv cfg hmax)
  by_cases hl : (sessionRun cfg sessionStart evs).statusLocked = true
  · obtain ⟨a, b, c'⟩ := hk hl
    exact ⟨by simp [a], by omega, by omega, fun _ => ⟨a, b, c'⟩⟩
  · simp only [Bool.not_eq_true] at hl
    obtain ⟨a, b, c', d⟩ := hu hl
    exact ⟨by simp [a], by omega, by omega, fun hx => absurd hx (by omega)⟩

/-- C2 witness: with maxWarnings 3 and four environment violations more
than 2s apart, at most one termination completion is scheduled. -/
theorem termination_idempotent_witness :
    1 ≤ scenarioDConfig.maxWarnings ∧
    (sessionRun scenarioDConfig sessionStart fourBlursTrace).completionsScheduled.length
      ≤ 1 :=
  ⟨by decide, (termination_idempotent scenarioDConfig fourBlursTrace (by decide)).1⟩

/-- C3: for every detected fullscreen exit at time t while the lockdown
is enabled and no intentional exit is in progress, the machine arms a
grace timer for t + graceMs and registers no strike at detection time;
if fullscreen has been restored when the timer elapses, the timer fires
silently (no FULLSCREEN_EXIT strike for that exit); if fullscreen is
still not restored when the timer elapses, exactly one FULLSCREEN_EXIT
strike is registered; and no event other than the grace timer ever emits
a FULLSCREEN_EXIT strike. -/
theorem fullscreen_grace_window (cfg : LockConfig) (s : LockState) (t : Nat)
    (hen : s.enabled = true) (hex : s.isExiting = false) :
    (lockStep cfg t s (.fsChange false)).2 = [] ∧
    (lockStep cfg t s (.fsChange false)).1.graceDeadline = some (t + cfg.graceMs) ∧
    (lockStep cfg t s (.fsChange false)).1.violationCount = s.violationCount ∧
    (∀ s' : LockState, s'.isFullscreen = true →
       (lockStep cfg t s' .graceFire).2 = [] ∧
       (lockStep cfg t s' .graceFire).1.violationCount = s'.violationCount) ∧
    (∀ s' : LockState, s'.isFullscreen = false → s'.enabled = true →
       s'.isExiting = false → s'.graceDeadline = some (t + cfg.graceMs) →
       (lockStep cfg t s' .graceFire).1.violationCount = s'.violationCount + 1 ∧
       ((lockStep cfg t s' .graceFire).2.countP LockOut.isFsExitViolation) = 1) ∧
    (∀ (s' : LockState) (e : LEvent), e ≠ .graceFire →
       ((lockStep cfg t s' e).2.countP LockOut.isFsExitViolation) = 0) := by
  refine ⟨?_, ?_, ?_, ?_, ?_, ?_⟩
  · simp [lockStep, handleFullscreenChange, hen, hex]
  · simp [lockStep, handleFullscreenChange, hen, hex]
  · simp [lockStep, handleFullscreenChange, hen, hex]
  · intro s' hfs
    simp [lockStep, fireGraceTimer, hfs]
    cases s'.graceDeadline <;> simp
  · intro s' hfs hen' hex' hdl
    simp [lockStep, fireGraceTimer, hdl, hfs, hen', hex', triggerViolation]
    split <;> simp [LockOut.isFsExitViolation, List.countP_cons, List.countP_nil]
  · intro s' e he
    cases e with
    | fsChange inFS =>
      simp [lockStep, handleFullscreenChange]
      split <;> simp
    | graceFire => exact absurd rfl he
    | visibilityChange hidden =>
      simp [lockStep, handleVisibilityChange]
      split
      · simp [triggerViolation]
        split
        · simp
        · split <;> simp [LockOut.isFsExitViolation, List.countP_cons, List.countP_nil]
      · simp
    | windowBlur =>
      simp [lockStep, handleWindowBlur]
      split
      · simp [triggerViolation]
        split
        · simp
        · split <;> simp [LockOut.isFsExitViolation, List.countP_cons, List.countP_nil]
      · simp
    | forceExit => simp [lockStep]
    | setEnabled b => simp [lockStep]

/-- C3 witness: at session start an exit at t = 1000 with graceMs 1500
arms the grace timer for 2500. -/
theorem fullscreen_grace_window_witness :
    sessionStart.lock.enabled = true ∧ sessionStart.lock.isExiting = false ∧
    (lockStep ⟨3, 1500⟩ 1000 sessionStart.lock (.fsChange false)).1.graceDeadline
      = some 2500 :=
  ⟨rfl, rfl, (fullscreen_grace_window ⟨3, 1500⟩ sessionStart.lock 1000 rfl rfl).2.1⟩

/-- C4 counterexample: the 2000ms rate limit does NOT apply to
violations fired by the lockdown machine.  Two window-blur violations
500ms apart increment the strike counter twice, not once, and append two
ledger entries. -/
theorem rate_limit_not_global_cex :
    (sessionRun scenarioDConfig sessionStart doubleBlurTrace).lock.violationCount = 2 ∧
    (sessionRun scenarioDConfig sessionStart doubleBlurTrace).warnLog.length = 2 ∧
    ¬ (sessionRun scenarioDConfig sessionStart doubleBlurTrace).lock.violationCount
      = 1 := by
  decide

/-- C4 amended: the 2000ms rate limit applies to the vision pipeline
only (shared across its six conditions): an accepted vision violation
increments the camera warning counter, and any second vision violation
within 2000ms of it leaves the counter unchanged, emits nothing, and
only updates the displayed feedback message; a rate-limited attempt
changes nothing else in the session (no log append, no lock change).
Environment-fired violations are not rate limited (see the
counterexample). -/
theorem vision_rate_limit_2000ms (t1 t2 : Nat) (m1 m2 : Msg) (s : CamWarnState)
    (h1 : 2000 < t1 - s.lastWarningTime) (h2 : t2 - t1 ≤ 2000) :
    (attemptTriggerWarning t1 false m1 s).1.warningCounter = s.warningCounter + 1 ∧
    (attemptTriggerWarning t1 false m1 s).2 = some (s.warningCounter + 1) ∧
    (attemptTriggerWarning t2 false m2
        (attemptTriggerWarning t1 false m1 s).1).1.warningCounter
      = s.warningCounter + 1 ∧
    (attemptTriggerWarning t2 false m2 (attemptTriggerWarning t1 false m1 s).1).2
      = none ∧
    (attemptTriggerWarning t2 false m2
        (attemptTriggerWarning t1 false m1 s).1).1.feedbackMsg = m2 ∧
    (∀ (cfg : SessionConfig) (u : Nat) (st : SessionState) (c : Condition),
      (attemptTriggerWarning u false (conditionMessage c) st.cam).2 = none →
        camAttemptStep cfg u st c
          = { st with cam := (attemptTriggerWarning u false (conditionMessage c) st.cam).1 } ∧
        (camAttemptStep cfg u st c).cam.warningCounter = st.cam.warningCounter) := by
  have e1 : attemptTriggerWarning t1 false m1 s =
      ({ lastWarningTime := t1, warningCounter := s.warningCounter + 1,
         feedbackMsg := .strike (s.warningCounter + 1) m1 },
       some (s.warningCounter + 1)) := by
    simp [attemptTriggerWarning, triggerWarning, if_pos h1]
  have e2 : attemptTriggerWarning t2 false m2 (attemptTriggerWarning t1 false m1 s).1 =
      ({ lastWarningTime := t1, warningCounter := s.warningCounter + 1,
         feedbackMsg := m2 }, none) := by
    rw [e1]
    have hn : ¬ 2000 < t2 - t1 := by omega
    simp [attemptTriggerWarning, hn]
  refine ⟨by rw [e1], by rw [e1], by rw [e2], by rw [e2], by rw [e2], ?_⟩
  intro cfg u st c hnone
  have hstep : camAttemptStep cfg u st c
      = { st with cam := (attemptTriggerWarning u false (conditionMessage c) st.cam).1 } := by
    simp only [camAttemptStep, hnone]
  refine ⟨hstep, ?_⟩
  rw [hstep]
  unfold attemptTriggerWarning at hnone ⊢
  split at hnone
  · simp [triggerWarning] at hnone
  · rename_i hcond
    rw [if_neg hcond]

/-- C4 witness: an accepted strike at t = 3000 followed by an attempt at
t = 4000 (1000ms later) emits nothing. -/
theorem vision_rate_limit_2000ms_witness :
    2000 < 3000 - CamWarnState.start.lastWarningTime ∧ 4000 - 3000 ≤ 2000 ∧
    (attemptTriggerWarning 4000 false .maintainEyeContact
      (attemptTriggerWarning 3000 false .faceNotDetected CamWarnState.start).1).2
      = none :=
  ⟨by decide, by decide,
   (vision_rate_limit_2000ms 3000 4000 .faceNotDetected .maintainEyeContact
      CamWarnState.start (by decide) (by decide)).2.2.2.1⟩

/-- C5: for every sensitivity tier and every monitored condition with
threshold T, starting from zero counters, T consecutive qualifying
frames invoke no warning, T qualifying frames followed by one
non-qualifying frame invoke no warning, and T + 1 consecutive qualifying
frames invoke exactly one warning (necessarily on the last frame). -/
theorem debounce_boundary (sens : Sensitivity) (c : Condition) :
    (visionRun sens .start (List.replicate (conditionThreshold sens c) (qualFrame c))).2
      = [] ∧
    (visionRun sens .start
      (List.replicate (conditionThreshold sens c) (qualFrame c) ++ [nonQualFrame])).2
      = [] ∧
    (visionRun sens .start
      (List.replicate (conditionThreshold sens c + 1) (qualFrame c))).2 = [c] := by
  revert sens c; decide

/-- C5 witness: at High sensitivity, six consecutive no-face frames fire
exactly one missing-face warning. -/
theorem debounce_boundary_witness :
    (visionRun .high .start (List.replicate 6 (qualFrame .faceMissing))).2
      = [Condition.faceMissing] :=
  (debounce_boundary .high .faceMissing).2.2

/-- C6 counterexample: the decay rule "subtract 1, floor 0" does NOT
hold for every counter.  Two no-face frames bring the missing-face
counter to 2; a following face-present frame resets it directly to 0
instead of decrementing it to 1. -/
theorem decay_reset_cex :
    (visionRun .medium .start
      [qualFrame .faceMissing, qualFrame .faceMissing, nonQualFrame]).1.missingFaceFrames
      = 0 ∧
    ¬ (visionRun .medium .start
      [qualFrame .faceMissing, qualFrame .faceMissing, nonQualFrame]).1.missingFaceFrames
      = 1 := by
  decide

/-- C6 amended: on a frame with a face present, the looking-down,
talking, and phone-use counters decay by exactly 1 with a floor of 0
when their condition is false, while the missing-face and looking-away
counters reset directly to 0; the multiple-faces counter resets to 0
whenever at most one face is present; and on a no-face frame the
looking-away, talking, phone-use, and looking-down counters are not
updated at all (the source returns early). -/
theorem counter_decay_rules (sens : Sensitivity) (f : FrameObs) (s : VisionCounters) :
    (f.faceCount ≠ 0 →
      (processResult sens f s).1.missingFaceFrames = 0 ∧
      (f.isLookingAway = false → (processResult sens f s).1.lookingAwayFrames = 0) ∧
      (f.isTalking = false →
        (processResult sens f s).1.talkingFrames = s.talkingFrames - 1) ∧
      ((f.isHeadDown && f.isEyesLookingDown) = false →
        (processResult sens f s).1.phoneUseFrames = s.phoneUseFrames - 1) ∧
      ((f.isHeadDown && !(f.isHeadDown && f.isEyesLookingDown)) = false →
        (processResult sens f s).1.lookingDownFrames = s.lookingDownFrames - 1)) ∧
    (f.faceCount ≤ 1 → (processResult sens f s).1.multipleFacesFrames = 0) ∧
    (f.faceCount = 0 →
      (processResult sens f s).1.lookingAwayFrames = s.lookingAwayFrames ∧
      (processResult sens f s).1.talkingFrames = s.talkingFrames ∧
      (processResult sens f s).1.phoneUseFrames = s.phoneUseFrames ∧
      (processResult sens f s).1.lookingDownFrames = s.lookingDownFrames) := by
  refine ⟨?_, ?_, ?_⟩
  · intro hne
    refine ⟨by simp [processResult, hne], ?_, ?_, ?_, ?_⟩
    · intro h; simp [processResult, hne, h]
    · intro h; simp [processResult, hne, h]
    · intro h; simp [processResult, hne, h]
    · intro h
      have hb : f.isHeadDown = false ∨
          (f.isHeadDown = true ∧ f.isEyesLookingDown = true) := by
        revert h; cases f.isHeadDown <;> cases f.isEyesLookingDown <;> simp
      rcases hb with hb | ⟨hb1, hb2⟩
      · simp [processResult, hne, hb]
      · simp [processResult, hne, hb1, hb2]
  · intro hle
    have hn : ¬ 1 < f.faceCount := by omega
    by_cases hf : f.faceCount = 0
    · simp [processResult, hf, hn]
    · simp [processResult, hf, hn]
  · intro hf
    simp [processResult, hf]

/-- C6 witness: on a face-present non-talking frame, a talking counter
of 5 decays to 4. -/
theorem counter_decay_rules_witness :
    nonQualFrame.faceCount ≠ 0 ∧
    (processResult .medium nonQualFrame ⟨0, 2, 3, 4, 5, 6⟩).1.talkingFrames = 4 :=
  ⟨by decide,
   ((counter_decay_rules .medium nonQualFrame ⟨0, 2, 3, 4, 5, 6⟩).1 (by decide)).2.2.1 rfl⟩

/-- C7 counterexample: the post-fire reduction does NOT apply to every
counter.  At High sensitivity the missing-face violation fires on the
sixth consecutive no-face frame with the counter left at 6 (not reduced
below its firing value), and the condition re-fires on the very next
qualifying frame. -/
theorem refractory_not_universal_cex :
    (visionRun .high .start (List.replicate 6 (qualFrame .faceMissing))).1.missingFaceFrames
      = 6 ∧
    ¬ (visionRun .high .start
        (List.replicate 6 (qualFrame .faceMissing))).1.missingFaceFrames < 6 ∧
    (visionRun .high .start (List.replicate 6 (qualFrame .faceMissing))).2 =
      [Condition.faceMissing] ∧
    (visionRun .high .start (List.replicate 7 (qualFrame .faceMissing))).2 =
      [Condition.faceMissing, Condition.faceMissing] := by
  decide

/-- C7 amended: every condition fires only when its incremented counter
exceeds its threshold, and the post-fire reset to a strictly smaller
nonzero value (with a refractory next frame) holds exactly for the
talking (reset to 30), phone-use (reset to 5), and looking-down (reset
to 10) counters; the missing-face, looking-away, and multiple-faces
counters receive no post-fire reduction (see the counterexample). -/
theorem refractory_reduction_rules (sens : Sensitivity) (f : FrameObs)
    (s : VisionCounters) :
    (∀ c : Condition, c ∈ (processResult sens f s).2 →
      conditionThreshold sens c < counterOf c s + 1) ∧
    (Condition.talking ∈ (processResult sens f s).2 →
      (processResult sens f s).1.talkingFrames = 30 ∧ 30 < s.talkingFrames + 1 ∧
      ∀ f' : FrameObs,
        Condition.talking ∉ (processResult sens f' (processResult sens f s).1).2) ∧
    (Condition.phoneUse ∈ (processResult sens f s).2 →
      (processResult sens f s).1.phoneUseFrames = 5 ∧ 5 < s.phoneUseFrames + 1 ∧
      ∀ f' : FrameObs,
        Condition.phoneUse ∉ (processResult sens f' (processResult sens f s).1).2) ∧
    (Condition.lookingDown ∈ (processResult sens f s).2 →
      (processResult sens f s).1.lookingDownFrames = 10 ∧ 10 < s.lookingDownFrames + 1 ∧
      ∀ f' : FrameObs,
        Condition.lookingDown ∉ (processResult sens f' (processResult sens f s).1).2) := by
  refine ⟨?_, ?_, ?_, ?_⟩
  · intro c hc
    rw [mem_processResult] at hc
    rcases hc with ⟨rfl, h⟩ | ⟨rfl, h⟩ | ⟨rfl, h⟩ | ⟨rfl, h⟩ | ⟨rfl, h⟩ | ⟨rfl, h⟩ <;>
      simp_all [counterOf, conditionThreshold]
  · intro hc
    rw [mem_processResult] at hc
    rcases hc with ⟨h, -⟩ | ⟨h, -⟩ | ⟨h, -⟩ | ⟨-, hne, htk, h60⟩ | ⟨h, -⟩ | ⟨h, -⟩
    · simp at h
    · simp at h
    · simp at h
    · have h30 : (processResult sens f s).1.talkingFrames = 30 := by
        simp [processResult, hne, htk, h60]
      refine ⟨h30, by omega, ?_⟩
      intro f'
      rw [mem_processResult]
      simp [h30]
    · simp at h
    · simp at h
  · intro hc
    rw [mem_processResult] at hc
    rcases hc with ⟨h, -⟩ | ⟨h, -⟩ | ⟨h, -⟩ | ⟨h, -⟩ | ⟨-, hne, hsp, h15⟩ | ⟨h, -⟩
    · simp at h
    · simp at h
    · simp at h
    · simp at h
    · have h5 : (processResult sens f s).1.phoneUseFrames = 5 := by
        simp [processResult, hne, hsp, h15]
      refine ⟨h5, by omega, ?_⟩
      intro f'
      rw [mem_processResult]
      simp [h5]
    · simp at h
  · intro hc
    rw [mem_processResult] at hc
    rcases hc with ⟨h, -⟩ | ⟨h, -⟩ | ⟨h, -⟩ | ⟨h, -⟩ | ⟨h, -⟩ | ⟨-, hne, hhd, h20⟩
    · simp at h
    · simp at h
    · simp at h
    · simp at h
    · simp at h
    · have hb : f.isHeadDown = true ∧ f.isEyesLookingDown = false := by
        revert hhd; cases f.isHeadDown <;> cases f.isEyesLookingDown <;> simp
      have h10 : (processResult sens f s).1.lookingDownFrames = 10 := by
        simp [processResult, hne, hb.1, hb.2, h20]
      refine ⟨h10, by omega, ?_⟩
      intro f'
      rw [mem_processResult]
      simp [h10]

/-- C7 witness: a talking counter of 60 fires on the next talking frame
and is reset to 30. -/
theorem refractory_reduction_rules_witness :
    Condition.talking ∈ (processResult .high (qualFrame .talking) ⟨0, 0, 0, 0, 60, 0⟩).2 ∧
    (processResult .high (qualFrame .talking) ⟨0, 0, 0, 0, 60, 0⟩).1.talkingFrames = 30 :=
  ⟨by decide,
   ((refractory_reduction_rules .high (qualFrame .talking) ⟨0, 0, 0, 0, 60, 0⟩).2.1
      (by decide)).1⟩

/-- C8 counterexample: when no graceMs option is supplied, the lockdown
hook defaults it to 2000 milliseconds, not 1500. -/
theorem grace_default_cex :
    resolveGraceMs none = 2000 ∧ ¬ resolveGraceMs none = 1500 := by decide

/-- C8 amended: when no graceMs value is supplied to the lockdown
machine, the fullscreen-exit grace window defaults to 2000 milliseconds
(the InterviewScreen caller explicitly supplies 1500, and maxViolations
defaults to 3). -/
theorem grace_default_2000 :
    resolveGraceMs none = 2000 ∧ resolveMaxViolations none = 3 ∧
    interviewScreenGraceMs = 1500 := by decide

/-- C9 counterexample: the warning event recorded for the violation
fired by six consecutive no-face frames at High sensitivity has type
GAZE, not FACE_MISSING (the camera warning handler records every vision
strike as GAZE). -/
theorem face_missing_event_type_cex :
    (sessionRun scenarioDConfig sessionStart (scenarioDFrames 6)).warnLog.map
        WarningEvent.wtype = [WType.gaze] ∧
    ¬ (sessionRun scenarioDConfig sessionStart (scenarioDFrames 6)).warnLog.map
        WarningEvent.wtype = [WType.faceMissing] := by
  decide

/-- C9 amended: at High sensitivity (missing-face threshold 5), six
consecutive processed frames with zero faces detected cause exactly one
violation, fired on the sixth frame, and the warning event recorded for
it has type GAZE with the strike-1 ledger message. -/
theorem high_sensitivity_frame6_gaze :
    (sessionRun scenarioDConfig sessionStart (scenarioDFrames 5)).warnLog = [] ∧
    (sessionRun scenarioDConfig sessionStart (scenarioDFrames 6)).warnLog =
      [⟨3005, WType.gaze, Msg.strikeLedger 1⟩] ∧
    (sessionRun scenarioDConfig sessionStart (scenarioDFrames 6)).cam.warningCounter
      = 1 := by
  decide

/-- C10: once forceExitFullscreen has been called, the exiting flag is
set and never cleared by any later event, every later environment event
of any type emits no callback, and the violation count never changes
again for the remainder of the run. -/
theorem forceExit_permanent_silence (cfg : LockConfig) (t : Nat) (s : LockState)
    (evs : List (Nat × LEvent)) :
    (lockStep cfg t s .forceExit).2 = [] ∧
    (lockStep cfg t s .forceExit).1.isExiting = true ∧
    (lockRun cfg (lockStep cfg t s .forceExit).1 evs).1.isExiting = true ∧
    (lockRun cfg (lockStep cfg t s .forceExit).1 evs).1.violationCount
      = s.violationCount ∧
    (lockRun cfg (lockStep cfg t s .forceExit).1 evs).2 = [] := by
  have hx : (lockStep cfg t s .forceExit).1.isExiting = true := rfl
  obtain ⟨h1, h2, h3⟩ := lockRun_exiting cfg (lockStep cfg t s .forceExit).1 evs hx
  exact ⟨rfl, hx, h1, h2, h3⟩

/-- C10 witness: after a forced exit at session start, a blur, a hidden
visibility change, and a fullscreen exit all emit nothing. -/
theorem forceExit_permanent_silence_witness :
    (lockRun ⟨3, 1500⟩ (lockStep ⟨3, 1500⟩ 0 sessionStart.lock .forceExit).1
       [(5, .windowBlur), (6, .visibilityChange true), (7, .fsChange false)]).2 = [] :=
  (forceExit_permanent_silence ⟨3, 1500⟩ 0 sessionStart.lock
     [(5, .windowBlur), (6, .visibilityChange true), (7, .fsChange false)]).2.2.2.2

end Reincrew
